import Mathlib

/-
Verification of the Result/Option TypeScript library (gordonbrander/result).

Shallow embedding: the Result type from result.ts is a two-variant inductive;
JS `undefined` as the Option absent sentinel is Lean's `Option` with
`none` for the absent sentinel; the broader `Nullish<T>` (T | null | undefined)
is a three-variant inductive.  Host exceptions are modelled with `Except`:
a zero-argument JS function that may throw is embedded as the `Except` value
describing its observable behaviour (normal return or raised value).
-/

universe u v w x

/-- A Nullish value is a value of type T, the null sentinel, or the undefined
sentinel (TS: `type Nullish<T> = T | null | undefined`). -/
inductive Nullish (T : Type u) where
  | value (v : T)
  | null
  | undefined
deriving DecidableEq

/-- A Result is either an Ok value or Err value
(TS: `{ ok: true; value: T } | { ok: false; error: E }`). -/
inductive Result (T : Type u) (E : Type v) where
  | ok (value : T)
  | err (error : E)
deriving DecidableEq

/-- Model of the JS TypeError raised by `unwrap`: a message together with the
attached `cause` field. -/
structure TypeError (E : Type v) where
  message : String
  cause : E
deriving DecidableEq

namespace Result

variable {T : Type u} {E : Type v} {U : Type w}

/-- Is value Ok?  (TS: `result.ok === true`). -/
def isOk : Result T E → Bool
  | .ok _ => true
  | .err _ => false

/-- Is value Err?  (TS: `result.ok === false`). -/
def isErr : Result T E → Bool
  | .ok _ => false
  | .err _ => true

/-- Unwrap Result, throwing a TypeError if the Result is not Ok.
The result's error will be used as the cause for the TypeError.
(TS: `throw new TypeError("Result is an error", { cause: result.error })`;
the exception channel is modelled with `Except`.) -/
def unwrap : Result T E → Except (TypeError E) T
  | .ok value => .ok value
  | .err error => .error ⟨"Result is an error", error⟩

/-- Unwrap Result, or fall back to a default value if Err. -/
def unwrapOr (result : Result T E) (defaultValue : T) : T :=
  match result with
  | .ok value => value
  | .err _ => defaultValue

/-- Unwrap Result, or fall back to a default value generated with a function if Err. -/
def unwrapOrElse (result : Result T E) (defaultValue : E → T) : T :=
  match result with
  | .ok value => value
  | .err error => defaultValue error

/-- Map result Ok value
(TS: `isOk(result) ? ok(fn(result.value)) : err(result.error)`). -/
def map (result : Result T E) (fn : T → U) : Result U E :=
  match result with
  | .ok value => .ok (fn value)
  | .err error => .err error

/-- Map result Ok value, or fall back to a default value if Err. -/
def mapOr (result : Result T E) (fn : T → U) (defaultValue : U) : U :=
  match result with
  | .ok value => fn value
  | .err _ => defaultValue

/-- Map result Ok value, or fall back to a default value generated with a function if Err. -/
def mapOrElse (result : Result T E) (fn : T → U) (defaultValue : E → U) : U :=
  match result with
  | .ok value => fn value
  | .err error => defaultValue error

/-- Map a result, returning a new result with the same error type
(TS: `result.ok ? transform(result.value) : result`). -/
def flatMap (result : Result T E) (transform : T → Result U E) : Result U E :=
  match result with
  | .ok value => transform value
  | .err error => .err error

/-- Map Err value (TS: `isErr(result) ? err(fn(result.error)) : ok(result.value)`). -/
def mapErr (result : Result T E) (fn : E → U) : Result T U :=
  match result with
  | .ok value => .ok value
  | .err error => .err (fn error)

/-- Pipe a result through a series of functions that produce a result.
Shortcuts at first error.  Faithful to the loop in the untyped implementation:
`let res = value; if (!res.ok) return res;
 for (const fn of fns) { res = fn(res.value); if (!res.ok) return res; }
 return res;` -/
def pipe : Result T E → List (T → Result T E) → Result T E
  | .err error, _ => .err error
  | .ok value, [] => .ok value
  | .ok value, fn :: fns => pipe (fn value) fns

/-- The three-step heterogeneously-typed call shape of `pipe` (the TS arity-3
overload), obtained by unrolling the same loop three times: each intermediate
failure is returned immediately, otherwise the next step runs on the payload. -/
def pipe3 {T0 T1 T2 T3 : Type u} {E : Type v} (value : Result T0 E)
    (fn1 : T0 → Result T1 E) (fn2 : T1 → Result T2 E) (fn3 : T2 → Result T3 E) :
    Result T3 E :=
  match value with
  | .err error => .err error
  | .ok v0 =>
    match fn1 v0 with
    | .err error => .err error
    | .ok v1 =>
      match fn2 v1 with
      | .err error => .err error
      | .ok v2 => fn3 v2

/-- Convert Result to Option. Ok gets unwrapped, and Err becomes undefined. -/
def toOption (result : Result T E) : Option T :=
  match result with
  | .ok value => some value
  | .err _ => none

/-- Perform a throwing function and return a Result.  The zero-argument JS
function is embedded as the `Except` value describing its behaviour: `.ok v`
when it returns v, `.error e` when it raises e (TS: `try { return ok(fn()) }
catch (error) { return err(error) }`). -/
def perform (fn : Except E T) : Result T E :=
  match fn with
  | .ok value => .ok value
  | .error error => .err error

end Result

namespace Nullish

variable {T : Type u}

/-- The nullish-coalescing normalisation `value ?? undefined` used by
`intoResult`: both null and undefined collapse to the absent sentinel. -/
def coalesce : Nullish T → Option T
  | .value v => some v
  | .null => none
  | .undefined => none

end Nullish

namespace Result

variable {T : Type u} {E : Type v}

/-- Transform two disjoint nullish values (a possible value and a possible error)
into a Result of optional value or error (TS: `if (error != undefined) return
err(error); return ok(value ?? undefined);` — the loose `!= undefined` is true
exactly when the error is neither null nor undefined). -/
def intoResult (value : Nullish T) (error : Nullish E) : Result (Option T) E :=
  match error with
  | .value e => .err e
  | .null => .ok value.coalesce
  | .undefined => .ok value.coalesce

end Result

namespace Optional

variable {T : Type u}

/-- Modelled from the spec: `from` lives in option.ts, which is not under src
(only its tests and the README are).  Per the spec, `from(value: Nullish<T>) ->
Optional<T>` "normalizes both empty representations to absent; non-empty values
pass through unchanged", i.e. it coalesces null to undefined and is the identity
otherwise. -/
def from' : Nullish T → Option T
  | .value v => some v
  | .null => none
  | .undefined => none

end Optional

namespace Combinators

variable {T : Type u} {E : Type v} {U : Type w}

/-- Unwrap Result, or fall back to a default value if Err (data-last). -/
def unwrapOr (defaultValue : T) : Result T E → T :=
  fun result => Result.unwrapOr result defaultValue

/-- Unwrap Result, or compute a fallback from the error (data-last). -/
def unwrapOrElse (fn : E → T) : Result T E → T :=
  fun result => Result.unwrapOrElse result fn

/-- Map Result Ok value (data-last). -/
def map (fn : T → U) : Result T E → Result U E :=
  fun result => Result.map result fn

/-- Map Result Ok value, or fall back to a default value if Err (data-last). -/
def mapOr (fn : T → U) (defaultValue : U) : Result T E → U :=
  fun result => Result.mapOr result fn defaultValue

/-- Map Result Ok value, or compute a fallback from the error (data-last). -/
def mapOrElse (fn : T → U) (defaultValue : E → U) : Result T E → U :=
  fun result => Result.mapOrElse result fn defaultValue

/-- FlatMap a Result, returning a new Result (data-last). -/
def flatMap (transform : T → Result U E) : Result T E → Result U E :=
  fun result => Result.flatMap result transform

/-- Map Err value (data-last). -/
def mapErr (fn : E → U) : Result T E → Result T U :=
  fun result => Result.mapErr result fn

end Combinators

section Helpers

variable {T : Type u} {E : Type v} {U : Type w} {V : Type x}

theorem Result.pipe_err (e : E) (fns : List (T → Result T E)) :
    Result.pipe (Result.err e) fns = Result.err e := by
  cases fns <;> rfl

theorem Result.pipe_ok_cons (x : T) (fn : T → Result T E)
    (fns : List (T → Result T E)) :
    Result.pipe (Result.ok x) (fn :: fns) = Result.pipe (fn x) fns := rfl

theorem Result.pipe_append (r : Result T E) (fns rest : List (T → Result T E)) :
    Result.pipe r (fns ++ rest) = Result.pipe (Result.pipe r fns) rest := by
  induction fns generalizing r with
  | nil => cases r <;> rfl
  | cons fn fns ih =>
    cases r with
    | err e => simp [Result.pipe_err]
    | ok x => simpa using ih (fn x)

theorem Result.pipe_eq_foldl (r : Result T E) (fns : List (T → Result T E)) :
    Result.pipe r fns = fns.foldl Result.flatMap r := by
  induction fns generalizing r with
  | nil => cases r <;> rfl
  | cons fn fns ih =>
    cases r with
    | err e =>
      rw [Result.pipe_err, List.foldl_cons]
      rw [show Result.flatMap (Result.err e) fn = Result.err e from rfl]
      rw [← ih, Result.pipe_err]
    | ok x =>
      rw [Result.pipe_ok_cons, ih, List.foldl_cons]
      rfl

end Helpers

/-- C1: pipe applied to a failure returns that failure unchanged for every list
of steps, so the outcome never depends on the steps (no step is invoked); from a
success the steps are applied in order (cons law), and the append law together
with failure absorption shows any intermediate failure is returned immediately
with all remaining steps skipped.  The concrete three-step example yields
`ok "result: 30"`. -/
theorem pipe_short_circuits_on_failure :
    (∀ (T : Type u) (E : Type v) (e : E) (fns : List (T → Result T E)),
        Result.pipe (Result.err e) fns = Result.err e)
    ∧ (∀ (T : Type u) (E : Type v) (x : T) (fn : T → Result T E)
        (fns : List (T → Result T E)),
        Result.pipe (Result.ok x) (fn :: fns) = Result.pipe (fn x) fns)
    ∧ (∀ (T : Type u) (E : Type v) (r : Result T E)
        (fns rest : List (T → Result T E)),
        Result.pipe r (fns ++ rest) = Result.pipe (Result.pipe r fns) rest)
    ∧ Result.pipe3 (Result.ok 10)
        (fun x => Result.ok (x + 5))
        (fun x => if x > 10 then Result.ok (x * 2) else Result.err "too small")
        (fun x => Result.ok ("result: " ++ toString x))
        = Result.ok "result: 30" :=
  ⟨fun _ _ e fns => Result.pipe_err e fns,
   fun _ _ x fn fns => Result.pipe_ok_cons x fn fns,
   fun _ _ r fns rest => Result.pipe_append r fns rest,
   by decide⟩

/-- C2: mapping a success applies the function to the payload; mapping a failure
returns the failure unchanged, and the result of mapping a failure does not
depend on the function at all (the embedding of "f is never invoked"). -/
theorem map_on_ok_and_err :
    (∀ (T : Type u) (U : Type w) (E : Type v) (x : T) (f : T → U),
        Result.map (Result.ok x : Result T E) f = Result.ok (f x))
    ∧ (∀ (T : Type u) (U : Type w) (E : Type v) (e : E) (f : T → U),
        Result.map (Result.err e) f = (Result.err e : Result U E))
    ∧ (∀ (T : Type u) (U : Type w) (E : Type v) (e : E) (f g : T → U),
        Result.map (Result.err e) f = Result.map (Result.err e) g) :=
  ⟨fun _ _ _ _ _ => rfl, fun _ _ _ _ _ => rfl, fun _ _ _ _ _ _ => rfl⟩

/-- C3: flatMap is associative: binding in two stages equals binding with the
composed continuation, for every Result and every pair of continuations. -/
theorem flatMap_is_associative :
    ∀ (T : Type u) (U : Type w) (V : Type x) (E : Type v)
      (m : Result T E) (f : T → Result U E) (g : U → Result V E),
      Result.flatMap (Result.flatMap m f) g
        = Result.flatMap m (fun x => Result.flatMap (f x) g) := by
  intro T U V E m f g
  cases m <;> rfl

/-- C4: unwrap of a success returns the payload; unwrap of a failure raises (in
the Except channel of the embedding) a TypeError whose message is "Result is an
error" and whose attached cause field is exactly the error value.  Every other
Result operation in the embedding is a total function with no Except channel,
reflecting that unwrap is the one raising operation. -/
theorem unwrap_ok_and_err_cause :
    (∀ (T : Type u) (E : Type v) (x : T),
        Result.unwrap (Result.ok x : Result T E) = Except.ok x)
    ∧ (∀ (T : Type u) (E : Type v) (e : E),
        Result.unwrap (Result.err e : Result T E)
          = Except.error ⟨"Result is an error", e⟩) :=
  ⟨fun _ _ _ => rfl, fun _ _ _ => rfl⟩

/-- C5: perform wraps a normal return as ok and captures any raised value
(modelled as the error branch of the Except describing the function's
behaviour) as err; being a total function into Result, it never lets an
exception escape. -/
theorem perform_captures :
    (∀ (T : Type u) (E : Type v) (v : T),
        Result.perform (Except.ok v : Except E T) = Result.ok v)
    ∧ (∀ (T : Type u) (E : Type v) (e : E),
        Result.perform (Except.error e : Except E T) = Result.err e) :=
  ⟨fun _ _ _ => rfl, fun _ _ _ => rfl⟩

/-- C6: intoResult returns err e whenever the error argument carries a present
value, regardless of the value argument; when the error is null or undefined it
returns ok of the coalesced value, where coalescing sends a present value to
itself and collapses null and undefined to the absent sentinel; in particular
both arguments absent gives a success carrying the absent value. -/
theorem intoResult_policy :
    (∀ (T : Type u) (E : Type v) (v : Nullish T) (e : E),
        Result.intoResult v (Nullish.value e) = Result.err e)
    ∧ (∀ (T : Type u) (E : Type v) (v : Nullish T),
        Result.intoResult v (Nullish.null : Nullish E) = Result.ok v.coalesce)
    ∧ (∀ (T : Type u) (E : Type v) (v : Nullish T),
        Result.intoResult v (Nullish.undefined : Nullish E) = Result.ok v.coalesce)
    ∧ (∀ (T : Type u) (x : T), (Nullish.value x).coalesce = some x)
    ∧ (∀ (T : Type u), (Nullish.null : Nullish T).coalesce = none)
    ∧ (∀ (T : Type u), (Nullish.undefined : Nullish T).coalesce = none)
    ∧ (∀ (T : Type u) (E : Type v),
        Result.intoResult (Nullish.undefined : Nullish T)
          (Nullish.undefined : Nullish E) = Result.ok none) :=
  ⟨fun _ _ _ _ => rfl, fun _ _ _ => rfl, fun _ _ _ => rfl,
   fun _ _ => rfl, fun _ => rfl, fun _ => rfl, fun _ _ => rfl⟩

/-- C7: every data-last curried combinator agrees with its data-first original
on all subjects and all configuration arguments: applying the curried form to
the arguments and then the subject gives exactly the data-first call. -/
theorem curried_combinators_agree :
    (∀ (T : Type u) (E : Type v) (d : T) (r : Result T E),
        Combinators.unwrapOr d r = Result.unwrapOr r d)
    ∧ (∀ (T : Type u) (E : Type v) (fn : E → T) (r : Result T E),
        Combinators.unwrapOrElse fn r = Result.unwrapOrElse r fn)
    ∧ (∀ (T : Type u) (U : Type w) (E : Type v) (fn : T → U) (r : Result T E),
        Combinators.map fn r = Result.map r fn)
    ∧ (∀ (T : Type u) (U : Type w) (E : Type v) (fn : T → U) (d : U)
        (r : Result T E),
        Combinators.mapOr fn d r = Result.mapOr r fn d)
    ∧ (∀ (T : Type u) (U : Type w) (E : Type v) (fn : T → U) (d : E → U)
        (r : Result T E),
        Combinators.mapOrElse fn d r = Result.mapOrElse r fn d)
    ∧ (∀ (T : Type u) (U : Type w) (E : Type v) (transform : T → Result U E)
        (r : Result T E),
        Combinators.flatMap transform r = Result.flatMap r transform)
    ∧ (∀ (T : Type u) (E : Type v) (U : Type w) (fn : E → U) (r : Result T E),
        Combinators.mapErr fn r = Result.mapErr r fn) :=
  ⟨fun _ _ _ _ => rfl, fun _ _ _ _ => rfl, fun _ _ _ _ _ => rfl,
   fun _ _ _ _ _ _ => rfl, fun _ _ _ _ _ _ => rfl, fun _ _ _ _ _ => rfl,
   fun _ _ _ _ _ => rfl⟩

/-- C8: toOption projects a Result onto an Option by keeping the success payload
and discarding the error payload: ok x goes to the present value x and err e
goes to the absent sentinel. -/
theorem toOption_projects :
    (∀ (T : Type u) (E : Type v) (x : T),
        Result.toOption (Result.ok x : Result T E) = some x)
    ∧ (∀ (T : Type u) (E : Type v) (e : E),
        Result.toOption (Result.err e : Result T E) = none) :=
  ⟨fun _ _ _ => rfl, fun _ _ _ => rfl⟩

/-- C9: the Option constructor normalizes the null sentinel to the absent
sentinel and is the identity on every other input, undefined included; in
particular the falsy values 0, false and the empty string pass through as
present values. -/
theorem from_normalizes_null :
    (∀ (T : Type u), Optional.from' (Nullish.null : Nullish T) = none)
    ∧ (∀ (T : Type u) (x : T), Optional.from' (Nullish.value x) = some x)
    ∧ (∀ (T : Type u), Optional.from' (Nullish.undefined : Nullish T) = none)
    ∧ Optional.from' (Nullish.value (0 : Nat)) = some 0
    ∧ Optional.from' (Nullish.value false) = some false
    ∧ Optional.from' (Nullish.value "") = some "" :=
  ⟨fun _ => rfl, fun _ _ => rfl, fun _ => rfl, rfl, rfl, rfl⟩

/-- C10: the Result pipe is the iterated flatMap: for every Result and every
list of steps, pipe equals the left fold of flatMap over the steps; with zero
steps, pipe returns the Result unchanged. -/
theorem pipe_is_iterated_flatMap :
    (∀ (T : Type u) (E : Type v) (r : Result T E) (fns : List (T → Result T E)),
        Result.pipe r fns = fns.foldl Result.flatMap r)
    ∧ (∀ (T : Type u) (E : Type v) (r : Result T E), Result.pipe r [] = r) :=
  ⟨fun _ _ r fns => Result.pipe_eq_foldl r fns,
   fun _ _ r => by cases r <;> rfl⟩
